import Mathlib

/-!
Verification of the SNRv9 LittleFS-upload scripts.

The repository consists of two short Python scripts that invoke the external
`esptool.py` flashing tool:

* `src/upload_littlefs.py` — the argument-list ("capturing") variant: checks
  that the tool exists, builds an argument vector, runs it with
  `subprocess.run(..., capture_output=True)`, re-prints the captured stdout
  (always) and stderr (only when non-empty), and exits with the child's
  return code (`sys.exit(result.returncode)`), or with 1 when the tool is
  missing.

* `src/upload_littlefs_simple.py` — the shell-string variant: builds a single
  shell command string, `os.chdir`s into the tool's install directory, runs
  the string with `os.system`, and — crucially — DISCARDS the value returned
  by `os.system`, so the script ends normally with exit code 0 whenever the
  `chdir` succeeded.

Filesystem paths are modelled as lists of path components of an absolute
path (the result of `os.path.expanduser("~")` is the component list
`Env.home`); `renderAbs` renders a component list back to the slash-separated
string the scripts actually print and pass to child processes.  The operating
system and the two process-launching primitives are modelled by oracles in
`Env`: `pathExists` is `os.path.exists`, `subprocess_run` gives the behaviour
of `subprocess.run` on an argument vector, and `os_system` gives the
behaviour of `os.system` on a shell string (its exit status, and the lines
the child streams to the inherited terminal).
-/

namespace SNRv9

/-- Result of `subprocess.run(cmd, capture_output=True, text=True)`:
the child's return code and its captured stdout/stderr texts. -/
structure ChildResult where
  returncode : Int
  stdout : String
  stderr : String
deriving Repr, DecidableEq

/-- Result of `os.system(cmd)`: the wait status the call returns, and the
output lines the child streams directly to the inherited terminal. -/
structure ShellResult where
  status : Int
  streamed : List String
deriving Repr, DecidableEq

/-- Render an absolute path, given as its list of components, as the
slash-separated string the scripts print and pass around. -/
def renderAbs (cs : List String) : String :=
  "/" ++ String.intercalate "/" cs

/-- The environment of one program run: the user's home directory (the value
of `os.path.expanduser("~")`, as path components), the running interpreter
(`sys.executable`), the working directory the process starts in (inherited
from the caller), and oracles for `os.path.exists`, `subprocess.run` and
`os.system`. -/
structure Env where
  home : List String
  sysExecutable : String
  callerCwd : List String
  pathExists : List String → Bool
  subprocess_run : List String → ChildResult
  os_system : String → ShellResult

/-- Outcome of one program run: the lines the script itself printed to
stdout plus any lines a child streamed to the shared terminal (`trace`),
the process exit code, whether a child process was launched, the working
directory the child (if any) was launched from, the script process's working
directory when it exited, and the caller's own working directory after the
run (a child process cannot alter its parent's working directory, and
neither script has any other channel back to the caller). -/
structure Outcome where
  trace : List String
  exitCode : Int
  launched : Bool
  launchCwd : Option (List String)
  cwdAtExit : List String
  callerCwd : List String
deriving Repr, DecidableEq

/-! ## upload_littlefs.py (argument-list variant) -/

/-- Line 7: `pio_packages = os.path.expanduser("~/.platformio/packages")`. -/
def pio_packages (env : Env) : List String :=
  env.home ++ [".platformio", "packages"]

/-- Line 8: `esptool_path = os.path.join(pio_packages, "tool-esptoolpy", "esptool.py")`. -/
def esptool_path (env : Env) : List String :=
  pio_packages env ++ ["tool-esptoolpy", "esptool.py"]

/-- Lines 15–22: the argument vector
`[sys.executable, esptool_path, "--port", "COM3", "write_flash", "0x580000", "littlefs_image.bin"]`. -/
def upload_littlefs_cmd (env : Env) : List String :=
  [env.sysExecutable, renderAbs (esptool_path env),
   "--port", "COM3", "write_flash", "0x580000", "littlefs_image.bin"]

/-- The whole run of `upload_littlefs.py`.  Lines 10–12: if the tool path
does not exist, print an error naming it and `sys.exit(1)` without launching
anything.  Lines 24–33: print the joined command, run it capturing output,
always print `STDOUT:` and the captured stdout, print `STDERR:` and the
captured stderr only when it is non-empty (Python truthiness of
`result.stderr`), and exit with the child's return code.  The script never
calls `os.chdir`, so its working directory stays the inherited one. -/
def upload_littlefs_run (env : Env) : Outcome :=
  if env.pathExists (esptool_path env) = false then
    { trace := ["Error: esptool.py not found at " ++ renderAbs (esptool_path env)]
      exitCode := 1
      launched := false
      launchCwd := none
      cwdAtExit := env.callerCwd
      callerCwd := env.callerCwd }
  else
    let r := env.subprocess_run (upload_littlefs_cmd env)
    { trace := ["Executing: " ++ String.intercalate " " (upload_littlefs_cmd env),
                "STDOUT:", r.stdout]
               ++ (if r.stderr ≠ "" then ["STDERR:", r.stderr] else [])
      exitCode := r.returncode
      launched := true
      launchCwd := some env.callerCwd
      cwdAtExit := env.callerCwd
      callerCwd := env.callerCwd }

/-! ## upload_littlefs_simple.py (shell-string variant) -/

/-- Line 6: `pio_python = os.path.expanduser("~/.platformio/python3/python.exe")`. -/
def pio_python (env : Env) : List String :=
  env.home ++ [".platformio", "python3", "python.exe"]

/-- Line 10: `esptool_dir = os.path.join(pio_packages, "tool-esptoolpy")`
(with line 7's `pio_packages = os.path.expanduser("~/.platformio/packages")`). -/
def esptool_dir (env : Env) : List String :=
  (env.home ++ [".platformio", "packages"]) ++ ["tool-esptoolpy"]

/-- Line 11: `esptool_script = os.path.join(esptool_dir, "esptool.py")`. -/
def esptool_script (env : Env) : List String :=
  esptool_dir env ++ ["esptool.py"]

/-- Path normalisation step of `os.path.normpath` on an absolute path's
components: a `..` component removes the preceding component (at the root it
is a no-op, matching `normpath`). -/
def resolveDots (cs : List String) : List String :=
  cs.foldl (fun acc c => if c = ".." then acc.dropLast else acc ++ [c]) []

/-- `os.path.abspath(rel)` for a relative path `rel` (given as components,
which may include `..`) evaluated in working directory `cwd`: per the Python
documentation this is `normpath(join(cwd, rel))`. -/
def os_abspath (cwd rel : List String) : List String :=
  resolveDots (cwd ++ rel)

/-- Line 15's embedded expression `os.path.abspath("../../littlefs_image.bin")`,
evaluated after line 14's `os.chdir(esptool_dir)` has made the tool directory
the working directory. -/
def simple_image_path (env : Env) : List String :=
  os_abspath (esptool_dir env) ["..", "..", "littlefs_image.bin"]

/-- Line 15: the shell command string
`f'"{pio_python}" esptool.py --port COM3 write_flash 0x580000 "{os.path.abspath("../../littlefs_image.bin")}"'`. -/
def upload_littlefs_simple_cmd (env : Env) : String :=
  "\"" ++ renderAbs (pio_python env)
       ++ "\" esptool.py --port COM3 write_flash 0x580000 \""
       ++ renderAbs (simple_image_path env) ++ "\""

/-- The whole run of `upload_littlefs_simple.py`.  Line 14:
`os.chdir(esptool_dir)` — if the directory does not exist this raises an
uncaught `FileNotFoundError`, so the interpreter prints a traceback to
stderr and the process exits with code 1 having launched nothing.
Otherwise lines 15–17: build the shell string, print it, and pass it to
`os.system`, whose child streams its output to the inherited terminal.
The value returned by `os.system` is DISCARDED — the script then falls off
the end and the process exits normally with code 0.  The `os.chdir` changes
only this process's working directory; the caller's is untouched. -/
def upload_littlefs_simple_run (env : Env) : Outcome :=
  if env.pathExists (esptool_dir env) = false then
    { trace := []
      exitCode := 1
      launched := false
      launchCwd := none
      cwdAtExit := env.callerCwd
      callerCwd := env.callerCwd }
  else
    let sh := env.os_system (upload_littlefs_simple_cmd env)
    { trace := ["Executing: " ++ upload_littlefs_simple_cmd env] ++ sh.streamed
      exitCode := 0
      launched := true
      launchCwd := some (esptool_dir env)
      cwdAtExit := esptool_dir env
      callerCwd := env.callerCwd }

/-! ## Concrete environments for instantiating the theorems -/

/-- A concrete environment: home `/home/user`, every path present, a child
that succeeds with empty stderr, and a shell child that exits 2 after
streaming a connection error. -/
def env0 : Env :=
  { home := ["home", "user"]
    sysExecutable := "python3"
    callerCwd := ["home", "user", "SNRv9"]
    pathExists := fun _ => true
    subprocess_run := fun _ => { returncode := 0, stdout := "ok", stderr := "" }
    os_system := fun _ => { status := 2, streamed := ["could not connect"] } }

/-- Like `env0` but the captured child exits 2 with stderr text
`could not connect`. -/
def env2 : Env :=
  { env0 with
      subprocess_run := fun _ =>
        { returncode := 2, stdout := "", stderr := "could not connect" } }

/-- A concrete environment in which the tool's install directory exists but
nothing else does — in particular `esptool.py` itself is missing. -/
def envNoScript : Env :=
  { env0 with
      pathExists := fun p =>
        p == ["home", "user", ".platformio", "packages", "tool-esptoolpy"] }

/-! ## Shared helper lemmas -/

/-- Folding the `normpath` step over dot-free components just appends them. -/
lemma resolveDots_step_no_dots (acc : List String) (cs : List String)
    (h : ".." ∉ cs) :
    cs.foldl (fun acc c => if c = ".." then acc.dropLast else acc ++ [c]) acc
      = acc ++ cs := by
  induction cs generalizing acc with
  | nil => simp
  | cons c cs ih =>
    have hc : c ≠ ".." := fun hc => h (hc ▸ List.mem_cons_self c cs)
    have hcs : ".." ∉ cs := fun hm => h (List.mem_cons_of_mem c hm)
    simp [List.foldl_cons, hc, ih _ hcs]

/-- `../../littlefs_image.bin` resolved from the tool directory lands two
directories up from it. -/
lemma simple_image_path_two_up (env : Env) (h : ".." ∉ env.home) :
    simple_image_path env
      = (esptool_dir env).dropLast.dropLast ++ ["littlefs_image.bin"] := by
  have hdir : ".." ∉ esptool_dir env := by
    intro hm
    rcases List.mem_append.mp hm with hm | hm
    · rcases List.mem_append.mp hm with hm | hm
      · exact h hm
      · simp at hm
    · simp at hm
  unfold simple_image_path os_abspath resolveDots
  rw [List.foldl_append]
  rw [resolveDots_step_no_dots [] _ hdir]
  simp

/-- The tool directory's grandparent is `~/.platformio`. -/
lemma simple_image_path_home (env : Env) (h : ".." ∉ env.home) :
    simple_image_path env = env.home ++ [".platformio", "littlefs_image.bin"] := by
  rw [simple_image_path_two_up env h]
  unfold esptool_dir
  simp

/-! ## Claim theorems -/

/-- C8: both source variants resolve the identical flashing-tool path — the
home directory joined with `.platformio/packages/tool-esptoolpy/esptool.py` —
so for any fixed home directory the two variants' tool-path resolutions are
equal. -/
theorem c8_tool_path_agreement (env : Env) :
    esptool_path env = esptool_script env
    ∧ esptool_path env
        = env.home ++ [".platformio", "packages", "tool-esptoolpy", "esptool.py"] := by
  constructor <;>
    simp [esptool_path, esptool_script, esptool_dir, pio_packages]

/-- C4: both variants default to serial port COM3, the flash offset passed as
the hexadecimal string literal 0x580000, and the image filename
littlefs_image.bin — the shell-string variant's command carries the same
` --port COM3 write_flash 0x580000 ` tokens between the tool and the image;
the argument-list variant passes the bare relative filename and launches the
child from the caller's working directory, while the shell-string variant
resolves the image two directories up from the tool's install directory,
i.e. at `~/.platformio/littlefs_image.bin`. -/
theorem c4_defaults (env : Env) (h : ".." ∉ env.home) :
    upload_littlefs_cmd env
        = [env.sysExecutable, renderAbs (esptool_path env),
           "--port", "COM3", "write_flash", "0x580000", "littlefs_image.bin"]
    ∧ (env.pathExists (esptool_path env) = true →
        (upload_littlefs_run env).launchCwd = some env.callerCwd)
    ∧ simple_image_path env
        = (esptool_dir env).dropLast.dropLast ++ ["littlefs_image.bin"]
    ∧ simple_image_path env = env.home ++ [".platformio", "littlefs_image.bin"]
    ∧ "COM3" ∈ upload_littlefs_cmd env
    ∧ "0x580000" ∈ upload_littlefs_cmd env
    ∧ upload_littlefs_simple_cmd env
        = ("\"" ++ renderAbs (pio_python env) ++ "\" esptool.py")
            ++ (" --port COM3 write_flash 0x580000 "
                ++ ("\"" ++ renderAbs (simple_image_path env) ++ "\"")) := by
  refine ⟨rfl, fun hx => ?_,
    simple_image_path_two_up env h, simple_image_path_home env h, ?_, ?_, ?_⟩
  · simp [upload_littlefs_run, hx]
  · simp [upload_littlefs_cmd]
  · simp [upload_littlefs_cmd]
  · unfold upload_littlefs_simple_cmd
    simp only [String.append_assoc]
    rfl

/-- C4 witness: the theorem instantiated at the concrete environment `env0`,
whose home directory `/home/user` has no `..` component. -/
theorem c4_defaults_witness :
    (".." ∉ env0.home)
    ∧ env0.pathExists (esptool_path env0) = true
    ∧ (upload_littlefs_run env0).launchCwd = some env0.callerCwd
    ∧ simple_image_path env0 = env0.home ++ [".platformio", "littlefs_image.bin"]
    ∧ upload_littlefs_simple_cmd env0
        = ("\"" ++ renderAbs (pio_python env0) ++ "\" esptool.py")
            ++ (" --port COM3 write_flash 0x580000 "
                ++ ("\"" ++ renderAbs (simple_image_path env0) ++ "\"")) :=
  ⟨by decide, rfl, (c4_defaults env0 (by decide)).2.1 rfl,
   (c4_defaults env0 (by decide)).2.2.2.1,
   (c4_defaults env0 (by decide)).2.2.2.2.2.2⟩

/-- C3 counterexample: the assembled argument vector of the argument-list
variant is not of the claimed shape `[tool…, "write_flash", "--port", "COM3",
"0x580000", "littlefs_image.bin"]` for any tool prefix: in the actual vector
the port flag and its value precede the `write_flash` sub-command. -/
theorem c3_order_counterexample :
    (¬ ∃ pre : List String,
        upload_littlefs_cmd env0
          = pre ++ ["write_flash", "--port", "COM3", "0x580000", "littlefs_image.bin"])
    ∧ (upload_littlefs_cmd env0)[2]? = some "--port"
    ∧ (upload_littlefs_cmd env0)[4]? = some "write_flash" := by
  refine ⟨?_, rfl, rfl⟩
  rintro ⟨pre, hp⟩
  have hl := congrArg List.length hp
  simp [upload_littlefs_cmd] at hl
  match pre, hl with
  | [a, b], _ =>
    simp [upload_littlefs_cmd, env0] at hp

/-- C3 amended: buildCommand is deterministic (it is a pure function of the
environment) and produces exactly the token sequence [interpreter, tool,
port flag, port value, sub-command, offset, image path]; the shell-string
variant produces the single shell string with the tokens in that same
order. -/
theorem c3_amended_order (env : Env) (h : ".." ∉ env.home) :
    upload_littlefs_cmd env
        = [env.sysExecutable, renderAbs (esptool_path env),
           "--port", "COM3", "write_flash", "0x580000", "littlefs_image.bin"]
    ∧ upload_littlefs_simple_cmd env
        = "\"" ++ renderAbs (pio_python env)
            ++ "\" esptool.py --port COM3 write_flash 0x580000 \""
            ++ renderAbs (env.home ++ [".platformio", "littlefs_image.bin"]) ++ "\"" := by
  refine ⟨rfl, ?_⟩
  unfold upload_littlefs_simple_cmd
  rw [simple_image_path_home env h]

/-- C3 amended witness: the amended theorem instantiated at `env0`. -/
theorem c3_amended_order_witness :
    (".." ∉ env0.home)
    ∧ upload_littlefs_cmd env0
        = [env0.sysExecutable, renderAbs (esptool_path env0),
           "--port", "COM3", "write_flash", "0x580000", "littlefs_image.bin"] :=
  ⟨by decide, (c3_amended_order env0 (by decide)).1⟩

/-- C1 counterexample: in the concrete environment `env0` the shell-string
variant's child exits 2 (after streaming "could not connect"), yet the
program's own exit code is 0 — line 17 discards the value `os.system`
returns, so the child's exit code is never propagated. -/
theorem c1_exit_code_counterexample :
    (env0.os_system (upload_littlefs_simple_cmd env0)).status = 2
    ∧ (upload_littlefs_simple_run env0).exitCode = 0
    ∧ (upload_littlefs_simple_run env0).launched = true := by
  refine ⟨rfl, ?_, ?_⟩ <;> rfl

/-- C1 amended: the argument-list variant propagates the child's exit code,
and exits with the sentinel 1 when the tool was never found; the shell-string
variant, however, discards the child's exit status and exits 0 whenever the
chdir into the tool directory succeeded (it exits 1 only via the uncaught
chdir error when that directory is missing, again without launching the
tool). -/
theorem c1_amended_exit_codes (env : Env) :
    (env.pathExists (esptool_path env) = true →
       (upload_littlefs_run env).exitCode
         = (env.subprocess_run (upload_littlefs_cmd env)).returncode)
    ∧ (env.pathExists (esptool_path env) = false →
       (upload_littlefs_run env).exitCode = 1
       ∧ (upload_littlefs_run env).launched = false)
    ∧ (env.pathExists (esptool_dir env) = true →
       (upload_littlefs_simple_run env).exitCode = 0)
    ∧ (env.pathExists (esptool_dir env) = false →
       (upload_littlefs_simple_run env).exitCode = 1
       ∧ (upload_littlefs_simple_run env).launched = false) := by
  refine ⟨fun h => ?_, fun h => ?_, fun h => ?_, fun h => ?_⟩ <;>
    simp [upload_littlefs_run, upload_littlefs_simple_run, h]

/-- C1 amended witness: the amended theorem instantiated at `env2`, where
every path exists, the captured child exits 2 and the shell child's status
is likewise discarded. -/
theorem c1_amended_exit_codes_witness :
    env2.pathExists (esptool_path env2) = true
    ∧ (upload_littlefs_run env2).exitCode
        = (env2.subprocess_run (upload_littlefs_cmd env2)).returncode
    ∧ env2.pathExists (esptool_dir env2) = true
    ∧ (upload_littlefs_simple_run env2).exitCode = 0 :=
  ⟨rfl, (c1_amended_exit_codes env2).1 rfl, rfl,
   (c1_amended_exit_codes env2).2.2.1 rfl⟩

/-- C2 counterexample: in `envNoScript` the resolved tool path
`esptool.py` does not exist (only its directory does), yet the shell-string
variant still launches a child via the shell, prints no error naming the
path (its whole trace is the Executing line plus the child's streamed
output), and exits 0 rather than 1. -/
theorem c2_no_check_counterexample :
    envNoScript.pathExists (esptool_script envNoScript) = false
    ∧ (upload_littlefs_simple_run envNoScript).launched = true
    ∧ (upload_littlefs_simple_run envNoScript).exitCode = 0
    ∧ (upload_littlefs_simple_run envNoScript).trace
        = ["Executing: " ++ upload_littlefs_simple_cmd envNoScript,
           "could not connect"] := by
  refine ⟨rfl, rfl, rfl, rfl⟩

/-- C2 amended: only the argument-list variant performs the pre-execution
existence check — when its resolved tool path is missing it prints exactly
one line naming that path, exits 1, and launches no child.  The shell-string
variant performs no such check: whenever the tool's directory exists it
launches the shell regardless of whether `esptool.py` itself exists. -/
theorem c2_amended_existence_check (env : Env) :
    (env.pathExists (esptool_path env) = false →
       upload_littlefs_run env
         = { trace := ["Error: esptool.py not found at "
                        ++ renderAbs (esptool_path env)]
             exitCode := 1
             launched := false
             launchCwd := none
             cwdAtExit := env.callerCwd
             callerCwd := env.callerCwd })
    ∧ (env.pathExists (esptool_dir env) = true →
       (upload_littlefs_simple_run env).launched = true) := by
  refine ⟨fun h => ?_, fun h => ?_⟩ <;>
    simp [upload_littlefs_run, upload_littlefs_simple_run, h]

/-- C2 amended witness: the amended theorem instantiated at `envNoScript`,
where the argument-list variant's tool path is absent while the tool
directory is present. -/
theorem c2_amended_existence_check_witness :
    envNoScript.pathExists (esptool_path envNoScript) = false
    ∧ (upload_littlefs_run envNoScript).exitCode = 1
    ∧ (upload_littlefs_run envNoScript).launched = false
    ∧ ("Error: esptool.py not found at " ++ renderAbs (esptool_path envNoScript))
        ∈ (upload_littlefs_run envNoScript).trace
    ∧ envNoScript.pathExists (esptool_dir envNoScript) = true
    ∧ (upload_littlefs_simple_run envNoScript).launched = true := by
  have h1 := (c2_amended_existence_check envNoScript).1 rfl
  have h2 := (c2_amended_existence_check envNoScript).2 rfl
  refine ⟨rfl, ?_, ?_, ?_, rfl, h2⟩ <;> simp [h1]

/-- C5: whenever the tool is launched, the program's terminal output includes
the fully assembled command line (printed before execution) and the child's
output — re-printed captured stdout/stderr in the argument-list variant,
streamed straight through in the shell-string variant. -/
theorem c5_output_transparency (env : Env) :
    (env.pathExists (esptool_path env) = true →
       ("Executing: " ++ String.intercalate " " (upload_littlefs_cmd env))
           ∈ (upload_littlefs_run env).trace
       ∧ (env.subprocess_run (upload_littlefs_cmd env)).stdout
           ∈ (upload_littlefs_run env).trace
       ∧ ((env.subprocess_run (upload_littlefs_cmd env)).stderr ≠ "" →
            (env.subprocess_run (upload_littlefs_cmd env)).stderr
              ∈ (upload_littlefs_run env).trace))
    ∧ (env.pathExists (esptool_dir env) = true →
       (upload_littlefs_simple_run env).trace
         = ["Executing: " ++ upload_littlefs_simple_cmd env]
             ++ (env.os_system (upload_littlefs_simple_cmd env)).streamed) := by
  constructor
  · intro h
    refine ⟨?_, ?_, fun hs => ?_⟩
    · simp [upload_littlefs_run, h]
    · simp [upload_littlefs_run, h]
    · simp [upload_littlefs_run, h, hs]
  · intro h
    simp [upload_littlefs_simple_run, h]

/-- C5 witness: the theorem instantiated at `env2`, whose captured child has
non-empty stderr, exercising every part of the conclusion. -/
theorem c5_output_transparency_witness :
    env2.pathExists (esptool_path env2) = true
    ∧ env2.pathExists (esptool_dir env2) = true
    ∧ (env2.subprocess_run (upload_littlefs_cmd env2)).stderr ≠ ""
    ∧ ("Executing: " ++ String.intercalate " " (upload_littlefs_cmd env2))
        ∈ (upload_littlefs_run env2).trace
    ∧ (env2.subprocess_run (upload_littlefs_cmd env2)).stderr
        ∈ (upload_littlefs_run env2).trace
    ∧ (upload_littlefs_simple_run env2).trace
        = ["Executing: " ++ upload_littlefs_simple_cmd env2]
            ++ (env2.os_system (upload_littlefs_simple_cmd env2)).streamed :=
  ⟨rfl, rfl, by decide,
   ((c5_output_transparency env2).1 rfl).1,
   ((c5_output_transparency env2).1 rfl).2.2 (by decide),
   (c5_output_transparency env2).2 rfl⟩

/-- C6: neither variant inspects the image file before invoking the tool —
each run's outcome depends on the filesystem only through the existence of
the tool path (argument-list variant) or the tool directory (shell-string
variant), so changing whether the image exists cannot change the run; and
the child is launched exactly when that tool location exists, with no local
ImageNotFoundError path and no silent success. -/
theorem c6_no_image_validation (env : Env) (f : List String → Bool)
    (hcap : f (esptool_path env) = env.pathExists (esptool_path env))
    (hdir : f (esptool_dir env) = env.pathExists (esptool_dir env)) :
    upload_littlefs_run { env with pathExists := f } = upload_littlefs_run env
    ∧ upload_littlefs_simple_run { env with pathExists := f }
        = upload_littlefs_simple_run env
    ∧ (upload_littlefs_run env).launched = env.pathExists (esptool_path env)
    ∧ (upload_littlefs_simple_run env).launched
        = env.pathExists (esptool_dir env) := by
  obtain ⟨home, se, cc, pe, sr, osys⟩ := env
  refine ⟨?_, ?_, ?_, ?_⟩
  · simp only [upload_littlefs_run, esptool_path, pio_packages,
      upload_littlefs_cmd] at hcap ⊢
    rw [hcap]
  · simp only [upload_littlefs_simple_run, esptool_dir, pio_python,
      upload_littlefs_simple_cmd, simple_image_path, os_abspath] at hdir ⊢
    rw [hdir]
  · cases h : pe (esptool_path ⟨home, se, cc, pe, sr, osys⟩) <;>
      simp [upload_littlefs_run, h]
  · cases h : pe (esptool_dir ⟨home, se, cc, pe, sr, osys⟩) <;>
      simp [upload_littlefs_simple_run, h]

/-- C6 witness: the theorem instantiated at `env0` with a filesystem that
differs from `env0`'s exactly at the image file's path
(`/home/user/SNRv9/littlefs_image.bin` is made absent): the runs coincide. -/
theorem c6_no_image_validation_witness :
    ((fun p => !(p == ["home", "user", "SNRv9", "littlefs_image.bin"]))
        (esptool_path env0) = env0.pathExists (esptool_path env0))
    ∧ ((fun p => !(p == ["home", "user", "SNRv9", "littlefs_image.bin"]))
        (esptool_dir env0) = env0.pathExists (esptool_dir env0))
    ∧ upload_littlefs_run
        { env0 with
            pathExists :=
              fun p => !(p == ["home", "user", "SNRv9", "littlefs_image.bin"]) }
        = upload_littlefs_run env0
    ∧ upload_littlefs_simple_run
        { env0 with
            pathExists :=
              fun p => !(p == ["home", "user", "SNRv9", "littlefs_image.bin"]) }
        = upload_littlefs_simple_run env0 := by
  have h := c6_no_image_validation env0
      (fun p => !(p == ["home", "user", "SNRv9", "littlefs_image.bin"]))
      (by decide) (by decide)
  exact ⟨by decide, by decide, h.1, h.2.1⟩

/-- C7: every run of either variant leaves the caller's working directory
unchanged after the program ends; the argument-list variant never changes
its own working directory at all, while the shell-string variant's chdir
into the tool's install directory affects only its own process for the
single invocation. -/
theorem c7_cwd_frame (env : Env) :
    (upload_littlefs_run env).callerCwd = env.callerCwd
    ∧ (upload_littlefs_simple_run env).callerCwd = env.callerCwd
    ∧ (upload_littlefs_run env).cwdAtExit = env.callerCwd
    ∧ (env.pathExists (esptool_dir env) = true →
        (upload_littlefs_simple_run env).launchCwd = some (esptool_dir env)
        ∧ (upload_littlefs_simple_run env).cwdAtExit = esptool_dir env) := by
  refine ⟨?_, ?_, ?_, fun h => ?_⟩
  · cases hx : env.pathExists (esptool_path env) <;>
      simp [upload_littlefs_run, hx]
  · cases hx : env.pathExists (esptool_dir env) <;>
      simp [upload_littlefs_simple_run, hx]
  · cases hx : env.pathExists (esptool_path env) <;>
      simp [upload_littlefs_run, hx]
  · simp [upload_littlefs_simple_run, h]

/-- C7 witness: the theorem instantiated at `env0`. -/
theorem c7_cwd_frame_witness :
    env0.pathExists (esptool_dir env0) = true
    ∧ (upload_littlefs_run env0).callerCwd = env0.callerCwd
    ∧ (upload_littlefs_simple_run env0).callerCwd = env0.callerCwd
    ∧ (upload_littlefs_simple_run env0).cwdAtExit = esptool_dir env0 :=
  ⟨rfl, (c7_cwd_frame env0).1, (c7_cwd_frame env0).2.1,
   ((c7_cwd_frame env0).2.2.2 rfl).2⟩

/-- C9: in the capturing variant, after the child exits its stdout is always
printed under a `STDOUT:` header (even when the captured stdout is empty),
while the `STDERR:` header followed by the stderr text appears exactly when
the captured stderr is non-empty: the trace has length 3 when stderr is
empty and length 5 with the stderr block at positions 3 and 4 otherwise. -/
theorem c9_capture_trace_shape (env : Env)
    (h : env.pathExists (esptool_path env) = true) :
    ((upload_littlefs_run env).trace)[1]? = some "STDOUT:"
    ∧ ((upload_littlefs_run env).trace)[2]?
        = some (env.subprocess_run (upload_littlefs_cmd env)).stdout
    ∧ ((env.subprocess_run (upload_littlefs_cmd env)).stderr = "" →
        (upload_littlefs_run env).trace.length = 3)
    ∧ ((env.subprocess_run (upload_littlefs_cmd env)).stderr ≠ "" →
        ((upload_littlefs_run env).trace)[3]? = some "STDERR:"
        ∧ ((upload_littlefs_run env).trace)[4]?
            = some (env.subprocess_run (upload_littlefs_cmd env)).stderr
        ∧ (upload_littlefs_run env).trace.length = 5) := by
  by_cases hs : (env.subprocess_run (upload_littlefs_cmd env)).stderr = "" <;>
    simp [upload_littlefs_run, h, hs]

/-- C9 witness: the theorem instantiated at `env0` (whose captured stderr is
empty) and at `env2` (whose captured stderr is "could not connect"),
exercising both sides of the iff-shaped conclusion. -/
theorem c9_capture_trace_shape_witness :
    env0.pathExists (esptool_path env0) = true
    ∧ env2.pathExists (esptool_path env2) = true
    ∧ (env0.subprocess_run (upload_littlefs_cmd env0)).stderr = ""
    ∧ (env2.subprocess_run (upload_littlefs_cmd env2)).stderr ≠ ""
    ∧ (upload_littlefs_run env0).trace.length = 3
    ∧ ((upload_littlefs_run env2).trace)[3]? = some "STDERR:"
    ∧ (upload_littlefs_run env2).trace.length = 5 :=
  ⟨rfl, rfl, rfl, by decide,
   (c9_capture_trace_shape env0 rfl).2.2.1 rfl,
   ((c9_capture_trace_shape env2 rfl).2.2.2 (by decide)).1,
   ((c9_capture_trace_shape env2 rfl).2.2.2 (by decide)).2.2⟩

/-- C10: the tool script is never executed directly — the capturing variant
puts the running interpreter (`sys.executable`) first and the tool path
second in the argument vector, and the shell-string variant's command begins
with the quoted hardcoded PlatformIO interpreter followed by `esptool.py`;
no variant ever consults the filesystem about that interpreter: altering
existence at the interpreter's path alone leaves the run unchanged. -/
theorem c10_interpreter_front (env : Env) (f : List String → Bool)
    (hf : ∀ p, p ≠ pio_python env → f p = env.pathExists p) :
    (upload_littlefs_cmd env)[0]? = some env.sysExecutable
    ∧ (upload_littlefs_cmd env)[1]? = some (renderAbs (esptool_path env))
    ∧ (∃ rest : String,
        upload_littlefs_simple_cmd env
          = "\"" ++ renderAbs (pio_python env) ++ ("\" esptool.py" ++ rest))
    ∧ upload_littlefs_simple_run { env with pathExists := f }
        = upload_littlefs_simple_run env := by
  have hdir : f (esptool_dir env) = env.pathExists (esptool_dir env) := by
    refine hf _ (fun hc => ?_)
    unfold esptool_dir pio_python at hc
    rw [List.append_assoc] at hc
    have h2 := List.append_cancel_left hc
    simp at h2
  refine ⟨rfl, rfl, ?_, ?_⟩
  · refine ⟨" --port COM3 write_flash 0x580000 \""
        ++ renderAbs (simple_image_path env) ++ "\"", ?_⟩
    unfold upload_littlefs_simple_cmd
    simp only [String.append_assoc]
    rw [← String.append_assoc "\" esptool.py"]
    rfl
  · obtain ⟨home, se, cc, pe, sr, osys⟩ := env
    simp only [upload_littlefs_simple_run, esptool_dir, pio_python,
      upload_littlefs_simple_cmd, simple_image_path, os_abspath] at hdir ⊢
    rw [hdir]

/-- C10 witness: the theorem instantiated at `env0` with a filesystem that
removes exactly the hardcoded interpreter
`/home/user/.platformio/python3/python.exe`: the run is unchanged. -/
theorem c10_interpreter_front_witness :
    (upload_littlefs_cmd env0)[0]? = some env0.sysExecutable
    ∧ upload_littlefs_simple_run
        { env0 with pathExists := fun p => !(p == pio_python env0) }
        = upload_littlefs_simple_run env0 :=
  ⟨(c10_interpreter_front env0 (fun p => !(p == pio_python env0))
      (fun p hp => by
        have hb : (p == pio_python env0) = false := beq_eq_false_iff_ne.mpr hp
        show (!(p == pio_python env0)) = env0.pathExists p
        rw [hb]
        rfl)).1,
   (c10_interpreter_front env0 (fun p => !(p == pio_python env0))
      (fun p hp => by
        have hb : (p == pio_python env0) = false := beq_eq_false_iff_ne.mpr hp
        show (!(p == pio_python env0)) = env0.pathExists p
        rw [hb]
        rfl)).2.2.2⟩

end SNRv9
